import Mathlib

/-!
Verification of the speedy-form quoting core: a shallow embedding of the
pricing engine (`backend/pricing`), the vehicle lookup service
(`backend/vehicles/services`), the provider response cache
(`backend/vehicles/models.py`) and the quote generation pipeline
(`backend/quotes/tasks.py`, `backend/quotes/models.py`).

Python `Decimal` values are modelled as rationals (`ℚ`), Python strings as
Lean strings with character-list based helpers mirroring `str.upper`,
slicing, `startswith` and the `in` substring test, and Python `None` as
`Option`.  Exceptions are modelled with `Except`.
-/

set_option autoImplicit false

namespace SpeedyForm

/-- Model of Python `s.upper()`: uppercase every character. -/
def pyUpper (s : String) : String :=
  String.mk (s.data.map Char.toUpper)

/-- Model of Python `s.upper()[:2]`: uppercase then keep the first two
characters. -/
def pyUpper2 (s : String) : String :=
  String.mk ((s.data.map Char.toUpper).take 2)

/-- Model of Python `s.lower()`. -/
def pyLower (s : String) : String :=
  String.mk (s.data.map Char.toLower)

/-- Model of Python `s.startswith(t)`. -/
def strStarts (s t : String) : Bool :=
  decide (s.data.take t.data.length = t.data)

/-- Model of Python `t in s` for a character-list tail. -/
def hasSubList (t : List Char) : List Char → Bool
  | [] => decide (t = [])
  | c :: rest => decide ((c :: rest).take t.length = t) || hasSubList t rest

/-- Model of Python substring containment `t in s`. -/
def pyIn (t s : String) : Bool :=
  hasSubList t.data s.data

/-- Python truthiness of an `Optional[str]`: `None` and `""` are falsy. -/
def optStrFalsy : Option String → Bool
  | none => true
  | some s => decide (s = "")

/-- Shop pricing rule set: embedding of `pricing.models.PricingProfile`
(the fields the pricing engine reads; identity, timestamps and the unused
markup/crack-repair/admin fields are omitted).  `labor_type` keeps the two
Django choices `"flat"` and `"multiplier"` as strings. -/
structure PricingProfile where
  glass_discount_dw : ℚ := 48
  glass_discount_dt : ℚ := 48
  glass_discount_fw : ℚ := 48
  glass_discount_ft : ℚ := 48
  glass_discount_oem : ℚ := 0
  labor_type : String := "multiplier"
  labor_rate_dw : ℚ := 224/5
  labor_rate_dt : ℚ := 224/5
  labor_rate_fw : ℚ := 224/5
  labor_rate_ft : ℚ := 224/5
  labor_flat_amount : ℚ := 224/5
  kit_fee_1_hour : ℚ := 23
  kit_fee_1_5_hour : ℚ := 46
  kit_fee_2_hour : ℚ := 46
  kit_fee_2_5_hour : ℚ := 46
  kit_fee_3_plus_hour : ℚ := 46
  moulding_flat_fee : ℚ := 0
  hardware_flat_fee : ℚ := 0
  chip_repair_wr1 : ℚ := 49
  chip_repair_wr2 : ℚ := 29
  chip_repair_wr3 : ℚ := 29
  calibration_static : ℚ := 195
  calibration_dynamic : ℚ := 295
  calibration_dual : ℚ := 395
  mobile_fee_base : ℚ := 49
  mobile_fee_extended_base : ℚ := 49
  mobile_fee_per_mile : ℚ := 3/2
  mobile_max_distance : Nat := 60
deriving DecidableEq

/-- `PricingProfile.get_glass_discount`: select the discount bucket from a
category prefix code (`prefix_code.upper()[:2] if prefix_code else ""`). -/
def PricingProfile.get_glass_discount (p : PricingProfile) (prefix_code : String) : ℚ :=
  let prefix_upper := if prefix_code = "" then "" else pyUpper2 prefix_code
  if strStarts prefix_upper "D" then
    if prefix_upper = "DW" then p.glass_discount_dw else p.glass_discount_dt
  else if strStarts prefix_upper "F" then
    if prefix_upper = "FW" then p.glass_discount_fw else p.glass_discount_ft
  else if prefix_upper = "OE" ∨ prefix_upper = "OEM" then p.glass_discount_oem
  else p.glass_discount_dw

/-- `PricingProfile.get_labor_rate`: labor rate bucket by prefix code; the
flat amount short-circuits everything when `labor_type == "flat"`. -/
def PricingProfile.get_labor_rate (p : PricingProfile) (prefix_code : String) : ℚ :=
  if p.labor_type = "flat" then p.labor_flat_amount
  else
    let prefix_upper := if prefix_code = "" then "" else pyUpper2 prefix_code
    if strStarts prefix_upper "D" then
      if prefix_upper = "DW" then p.labor_rate_dw else p.labor_rate_dt
    else if strStarts prefix_upper "F" then
      if prefix_upper = "FW" then p.labor_rate_fw else p.labor_rate_ft
    else p.labor_rate_dw

/-- `PricingProfile.get_kit_fee`: tier table keyed by the hours argument. -/
def PricingProfile.get_kit_fee (p : PricingProfile) (labor_hours : ℚ) : ℚ :=
  if labor_hours ≤ 1 then p.kit_fee_1_hour
  else if labor_hours ≤ 3/2 then p.kit_fee_1_5_hour
  else if labor_hours ≤ 2 then p.kit_fee_2_hour
  else if labor_hours ≤ 5/2 then p.kit_fee_2_5_hour
  else p.kit_fee_3_plus_hour

/-- `PricingProfile.get_mobile_fee`: `none` when outside the service area,
base fee up to 30 miles, extended base plus per-mile surcharge beyond. -/
def PricingProfile.get_mobile_fee (p : PricingProfile) (distance_miles : ℚ) : Option ℚ :=
  if distance_miles > (p.mobile_max_distance : ℚ) then none
  else if distance_miles ≤ 30 then some p.mobile_fee_base
  else some (p.mobile_fee_extended_base + p.mobile_fee_per_mile * (distance_miles - 30))

/-- `PricingProfile.calculate_glass_price`: list price × (1 − discount/100). -/
def PricingProfile.calculate_glass_price (p : PricingProfile) (nags_list_price : ℚ)
    (prefix_code : String) : ℚ :=
  nags_list_price * (1 - p.get_glass_discount prefix_code / 100)

/-- `PricingProfile.calculate_labor`: flat amount or hours × category rate. -/
def PricingProfile.calculate_labor (p : PricingProfile) (labor_hours : ℚ)
    (prefix_code : String) : ℚ :=
  if p.labor_type = "flat" then p.labor_flat_amount
  else labor_hours * p.get_labor_rate prefix_code

/-- `PricingProfile.calculate_chip_repair`: first chip at the WR-1 price, the
second at WR-2, the third and beyond at WR-3 each. -/
def PricingProfile.calculate_chip_repair (p : PricingProfile) (chip_count : Int) : ℚ :=
  if chip_count ≤ 0 then 0
  else
    p.chip_repair_wr1
      + (if chip_count ≥ 2 then p.chip_repair_wr2 else 0)
      + (if chip_count ≥ 3 then p.chip_repair_wr3 * ((chip_count : ℚ) - 2) else 0)

/-- Provenance tag of a lookup result
(`Literal["autobolt", "nhtsa+nags", "nags", "cache", "manual"]`). -/
inductive Source where
  | autobolt
  | nhtsa_nags
  | nags
  | cache
  | manual
deriving DecidableEq

/-- Confidence level of a lookup result (`Literal["high", "medium", "low"]`). -/
inductive Confidence where
  | high
  | medium
  | low
deriving DecidableEq

/-- One candidate glass part: embedding of
`vehicles.services.types.GlassPart`.  The `photo_urls`, `nags_labor`,
`moulding_required` and `clips_required` fields are populated by the NAGS
client (`_build_glass_part` / `enrich_autobolt_part`) and read by the
pricing engine. -/
structure GlassPart where
  nags_part_number : String
  full_part_number : Option String := none
  prefix_cd : String := ""
  nags_list_price : Option ℚ := none
  calibration_type : Option String := none
  calibration_required : Bool := false
  features : List String := []
  photo_urls : List String := []
  tube_qty : ℚ := 3/2
  nags_labor : ℚ := 3/2
  additional_labor : String := ""
  moulding_required : Bool := false
  clips_required : Bool := false
  source : String := "unknown"
deriving DecidableEq

/-- Outcome of one vehicle/part lookup: embedding of
`vehicles.services.types.VehicleLookupResult` (the raw provider payload
kept for audit is omitted). -/
structure VehicleLookupResult where
  source : Source
  vin : String
  year : Int
  make : String
  model : String
  body_style : Option String := none
  trim : Option String := none
  parts : List GlassPart := []
  needs_part_selection : Bool := false
  needs_calibration_review : Bool := false
  needs_manual_review : Bool := false
  confidence : Confidence := .high
  review_reason : Option String := none
deriving DecidableEq

/-- `VehicleLookupResult.__post_init__`: runs once at construction; sets
`needs_part_selection` when more than one part is present, and
`needs_calibration_review` (with `"medium"` confidence) on the
NHTSA/NAGS provenances when no part carries calibration data and the
part list is non-empty.  A falsy (`None`/empty) review reason is filled in. -/
def VehicleLookupResult.post_init (r : VehicleLookupResult) : VehicleLookupResult :=
  let r1 :=
    if r.parts.length > 1 then
      { r with
        needs_part_selection := true
        review_reason :=
          if optStrFalsy r.review_reason then
            some ("Multiple parts available (" ++ toString r.parts.length ++ " options)")
          else r.review_reason }
    else r
  if (r1.source = Source.nhtsa_nags ∨ r1.source = Source.nags)
      ∧ (∀ p ∈ r1.parts, p.calibration_type = none) ∧ r1.parts ≠ [] then
    { r1 with
      needs_calibration_review := true
      confidence := .medium
      review_reason :=
        if optStrFalsy r1.review_reason then
          some "No calibration data available (NHTSA/NAGS fallback)"
        else r1.review_reason }
  else r1

/-- `VehicleLookupResult.needs_review`: derived OR of the three lookup
review flags, never stored. -/
def VehicleLookupResult.needs_review (r : VehicleLookupResult) : Bool :=
  r.needs_part_selection || r.needs_calibration_review || r.needs_manual_review

/-- `VehicleLookupResult.primary_part`: the first part, if any. -/
def VehicleLookupResult.primary_part (r : VehicleLookupResult) : Option GlassPart :=
  r.parts.head?

/-- Shop record (only the fields the pricing engine reads). -/
structure Shop where
  id : Int
  name : String
deriving DecidableEq

/-- Distinct raise sites of `pricing.services.pricing_service.PricingError`
reachable from the embedded entry points. `tooManyChips` carries the
"more than 3 chips requires replacement, select Windshield Replacement
instead" instruction; `chipCountTooLow` the "chip count must be at least 1"
message; `distanceExceedsMax` the "distance exceeds max mobile range"
message with its interpolated values. -/
inductive PricingError where
  | noParts
  | tooManyChips
  | chipCountTooLow
  | distanceExceedsMax (distance : ℚ) (maxDistance : Nat)
deriving DecidableEq

/-- One quote line item (`unit_price`/`quantity`/`subtotal` rows built by
`_build_line_items`). -/
structure LineItem where
  type : String
  description : String
  unit_price : ℚ
  quantity : Nat
  subtotal : ℚ
deriving DecidableEq

/-- Fixed replacement price band for auto-send validation
(`REPLACEMENT_PRICE_MIN`). -/
def REPLACEMENT_PRICE_MIN : ℚ := 500

/-- Fixed replacement price band for auto-send validation
(`REPLACEMENT_PRICE_MAX`). -/
def REPLACEMENT_PRICE_MAX : ℚ := 1200

/-- Result of a replacement pricing calculation: embedding of
`pricing.services.pricing_service.QuotePricing`. -/
structure QuotePricing where
  vin : String
  year : Int
  make : String
  model : String
  body_style : Option String
  nags_part_number : String
  part_description : String
  features : List String
  photo_urls : List String
  shop_id : Int
  shop_name : String
  glass_cost : ℚ
  labor_cost : ℚ
  kit_fee : ℚ
  moulding_fee : ℚ
  hardware_fee : ℚ
  calibration_fee : ℚ
  mobile_fee : ℚ
  subtotal : ℚ
  tax : ℚ
  total : ℚ
  line_items : List LineItem
  needs_part_selection : Bool
  needs_calibration_review : Bool
  needs_manual_review : Bool
  confidence : Confidence
  review_reason : Option String
  price_out_of_bounds : Bool := false
  missing_nags_price : Bool := false
deriving DecidableEq

/-- Text appended to the review reason by `check_price_bounds` (the Python
code interpolates the decimal amounts; the rational values are rendered
with `toString` here). -/
def boundReason (total : ℚ) : String :=
  "Price $" ++ toString total ++ " outside bounds ($"
    ++ toString REPLACEMENT_PRICE_MIN ++ "-$" ++ toString REPLACEMENT_PRICE_MAX ++ ")"

/-- `QuotePricing.check_price_bounds`: when the total falls outside the
fixed band, set `price_out_of_bounds` and append the bound-violation text
to a truthy existing review reason (the Python method mutates `self` and
returns a Bool; the updated record is returned here). -/
def QuotePricing.check_price_bounds (qp : QuotePricing) : QuotePricing :=
  if qp.total < REPLACEMENT_PRICE_MIN ∨ qp.total > REPLACEMENT_PRICE_MAX then
    { qp with
      price_out_of_bounds := true
      review_reason :=
        match qp.review_reason with
        | some r =>
            if r = "" then some (boundReason qp.total)
            else some (r ++ "; " ++ boundReason qp.total)
        | none => some (boundReason qp.total) }
  else qp

/-- `QuotePricing.needs_review`: OR of the three carried lookup flags and
the two pricing failsafe flags; recomputed, never stored. -/
def QuotePricing.needs_review (qp : QuotePricing) : Bool :=
  qp.needs_part_selection || qp.needs_calibration_review || qp.needs_manual_review
    || qp.price_out_of_bounds || qp.missing_nags_price

/-- Result of a chip repair pricing calculation: embedding of
`pricing.services.pricing_service.ChipRepairPricing`. -/
structure ChipRepairPricing where
  shop_id : Int
  shop_name : String
  chip_count : Int
  chip_repair_cost : ℚ
  mobile_fee : ℚ
  subtotal : ℚ
  tax : ℚ
  total : ℚ
  line_items : List LineItem
  needs_manual_review : Bool := false
  confidence : Confidence := .high
  review_reason : Option String := none
deriving DecidableEq

namespace PricingService

/-- `PricingService._calculate_glass_cost`: list-less pricing; zero when the
NAGS list price is absent. -/
def _calculate_glass_cost (part : GlassPart) (profile : PricingProfile) : ℚ :=
  match part.nags_list_price with
  | none => 0
  | some price => profile.calculate_glass_price price part.prefix_cd

/-- `PricingService._calculate_labor_cost`: labor from the part's NAGS labor
hours and category prefix. -/
def _calculate_labor_cost (part : GlassPart) (profile : PricingProfile) : ℚ :=
  profile.calculate_labor part.nags_labor part.prefix_cd

/-- `PricingService._calculate_kit_fee`: the tier table is keyed by the
part's `tube_qty` field at the call site. -/
def _calculate_kit_fee (part : GlassPart) (profile : PricingProfile) : ℚ :=
  profile.get_kit_fee part.tube_qty

/-- `PricingService._calculate_calibration_fee`: fee by substring match on
the calibration type, dynamic as the conservative default for unknown
types; zero when no calibration is required. -/
def _calculate_calibration_fee (part : GlassPart) (profile : PricingProfile) : ℚ :=
  if part.calibration_required = false ∨ optStrFalsy part.calibration_type then 0
  else
    match part.calibration_type with
    | none => 0
    | some ct =>
      let cal_type := pyLower ct
      if pyIn "dual" cal_type || pyIn "both" cal_type then profile.calibration_dual
      else if pyIn "dynamic" cal_type then profile.calibration_dynamic
      else if pyIn "static" cal_type then profile.calibration_static
      else profile.calibration_dynamic

/-- `PricingService._calculate_moulding_fee`: flat fee when the part needs
moulding and the profile fee is positive. -/
def _calculate_moulding_fee (part : GlassPart) (profile : PricingProfile) : ℚ :=
  if part.moulding_required = true ∧ profile.moulding_flat_fee > 0 then
    profile.moulding_flat_fee
  else 0

/-- `PricingService._calculate_hardware_fee`: flat fee when the part needs
clips and the profile fee is positive. -/
def _calculate_hardware_fee (part : GlassPart) (profile : PricingProfile) : ℚ :=
  if part.clips_required = true ∧ profile.hardware_flat_fee > 0 then
    profile.hardware_flat_fee
  else 0

/-- `PricingService._calculate_mobile_fee`: zero for non-mobile service,
base fee when the distance is unknown, otherwise the profile tier; raises
`PricingError` when the distance exceeds the profile maximum. -/
def _calculate_mobile_fee (service_type : String) (distance_miles : Option ℚ)
    (profile : PricingProfile) : Except PricingError ℚ :=
  if service_type ≠ "mobile" then .ok 0
  else
    match distance_miles with
    | none => .ok profile.mobile_fee_base
    | some d =>
      match profile.get_mobile_fee d with
      | none => .error (.distanceExceedsMax d profile.mobile_max_distance)
      | some fee => .ok fee

/-- `PricingService._build_line_items`: one row per positive component. -/
def _build_line_items (part : GlassPart) (glass_cost labor_cost kit_fee moulding_fee
    hardware_fee calibration_fee mobile_fee : ℚ) : List LineItem :=
  (if glass_cost > 0 then
    [{ type := "part", description := "Windshield - " ++ part.nags_part_number,
       unit_price := glass_cost, quantity := 1, subtotal := glass_cost }]
  else [])
  ++ (if labor_cost > 0 then
    [{ type := "labor",
       description := "Installation Labor (" ++ toString part.nags_labor ++ "h)",
       unit_price := labor_cost, quantity := 1, subtotal := labor_cost }]
  else [])
  ++ (if kit_fee > 0 then
    [{ type := "fee",
       description := "Urethane Kit (" ++ toString part.tube_qty ++ " tubes)",
       unit_price := kit_fee, quantity := 1, subtotal := kit_fee }]
  else [])
  ++ (if moulding_fee > 0 then
    [{ type := "fee", description := "Moulding Fee",
       unit_price := moulding_fee, quantity := 1, subtotal := moulding_fee }]
  else [])
  ++ (if hardware_fee > 0 then
    [{ type := "fee", description := "Hardware/Clips Fee",
       unit_price := hardware_fee, quantity := 1, subtotal := hardware_fee }]
  else [])
  ++ (if calibration_fee > 0 then
    [{ type := "calibration",
       description := "ADAS Calibration ("
         ++ (match part.calibration_type with
             | some ct => if ct ≠ "" then ct else "Required"
             | none => "Required") ++ ")",
       unit_price := calibration_fee, quantity := 1, subtotal := calibration_fee }]
  else [])
  ++ (if mobile_fee > 0 then
    [{ type := "fee", description := "Mobile Service Fee",
       unit_price := mobile_fee, quantity := 1, subtotal := mobile_fee }]
  else [])

/-- `PricingService._build_part_description`: up to three features, plus the
calibration requirement. -/
def _build_part_description (part : GlassPart) : String :=
  let desc_parts :=
    part.features.take 3
      ++ (match part.calibration_type with
          | some ct =>
            if part.calibration_required = true ∧ ct ≠ "" then
              [ct ++ " Calibration Required"]
            else []
          | none => [])
  if desc_parts = [] then "Standard Glass" else String.intercalate ", " desc_parts

/-- The quote record built on the success path of
`PricingService.calculate_quote` once the mobile fee is known, before the
final bound check: component costs from the primary part, vehicle and flag
fields carried over from the lookup result, and the missing-list-price
failsafe flag (which also fills in a falsy review reason). -/
def mk_quote_pricing (profile : PricingProfile) (lookup_result : VehicleLookupResult)
    (shop : Shop) (part : GlassPart) (mobile_fee : ℚ) : QuotePricing :=
  let missing_nags_price := part.nags_list_price.isNone
  let review_reason :=
    if part.nags_list_price = none ∧ optStrFalsy lookup_result.review_reason then
      some "Missing NAGS list price"
    else lookup_result.review_reason
  let glass_cost := _calculate_glass_cost part profile
  let labor_cost := _calculate_labor_cost part profile
  let kit_fee := _calculate_kit_fee part profile
  let moulding_fee := _calculate_moulding_fee part profile
  let hardware_fee := _calculate_hardware_fee part profile
  let calibration_fee := _calculate_calibration_fee part profile
  let subtotal := glass_cost + labor_cost + kit_fee + moulding_fee
    + hardware_fee + calibration_fee + mobile_fee
  let tax : ℚ := 0
  let total := subtotal + tax
  { vin := lookup_result.vin
    year := lookup_result.year
    make := lookup_result.make
    model := lookup_result.model
    body_style := lookup_result.body_style
    nags_part_number := part.nags_part_number
    part_description := _build_part_description part
    features := part.features
    photo_urls := part.photo_urls
    shop_id := shop.id
    shop_name := shop.name
    glass_cost := glass_cost
    labor_cost := labor_cost
    kit_fee := kit_fee
    moulding_fee := moulding_fee
    hardware_fee := hardware_fee
    calibration_fee := calibration_fee
    mobile_fee := mobile_fee
    subtotal := subtotal
    tax := tax
    total := total
    line_items := _build_line_items part glass_cost labor_cost kit_fee
      moulding_fee hardware_fee calibration_fee mobile_fee
    needs_part_selection := lookup_result.needs_part_selection
    needs_calibration_review := lookup_result.needs_calibration_review
    needs_manual_review := lookup_result.needs_manual_review
    confidence := lookup_result.confidence
    review_reason := review_reason
    missing_nags_price := missing_nags_price }

/-- `PricingService.calculate_quote`: price the primary (first) part of the
lookup result against the shop's profile.  The profile is passed explicitly
(`_get_pricing_profile` resolves it from the record store, an external
collaborator, and raises when the shop has none).  Raises when no part is
available or the mobile distance is out of range; the final record passes
through `check_price_bounds`. -/
def calculate_quote (profile : PricingProfile) (lookup_result : VehicleLookupResult)
    (shop : Shop) (service_type : String) (distance_miles : Option ℚ) :
    Except PricingError QuotePricing :=
  match lookup_result.parts with
  | [] => .error .noParts
  | part :: _ =>
    match _calculate_mobile_fee service_type distance_miles profile with
    | .error e => .error e
    | .ok mobile_fee =>
      .ok (QuotePricing.check_price_bounds
        (mk_quote_pricing profile lookup_result shop part mobile_fee))

/-- `PricingService._build_chip_repair_line_items`. -/
def _build_chip_repair_line_items (chip_count : Int) (profile : PricingProfile)
    (mobile_fee : ℚ) : List LineItem :=
  (if chip_count ≥ 1 then
    [{ type := "chip_repair", description := "Chip Repair #1 (WR-1)",
       unit_price := profile.chip_repair_wr1, quantity := 1,
       subtotal := profile.chip_repair_wr1 }]
  else [])
  ++ (if chip_count ≥ 2 then
    [{ type := "chip_repair", description := "Chip Repair #2 (WR-2)",
       unit_price := profile.chip_repair_wr2, quantity := 1,
       subtotal := profile.chip_repair_wr2 }]
  else [])
  ++ (if chip_count ≥ 3 then
    [{ type := "chip_repair", description := "Chip Repair #3 (WR-3)",
       unit_price := profile.chip_repair_wr3, quantity := 1,
       subtotal := profile.chip_repair_wr3 }]
  else [])
  ++ (if mobile_fee > 0 then
    [{ type := "fee", description := "Mobile Service Fee",
       unit_price := mobile_fee, quantity := 1, subtotal := mobile_fee }]
  else [])

/-- `PricingService.calculate_chip_repair`: rejects chip counts above 3
(with the use-replacement instruction) and below 1; otherwise sums the
tier prices and adds the mobile fee. -/
def calculate_chip_repair (profile : PricingProfile) (chip_count : Int) (shop : Shop)
    (service_type : String) (distance_miles : Option ℚ) :
    Except PricingError ChipRepairPricing :=
  if chip_count > 3 then .error .tooManyChips
  else if chip_count < 1 then .error .chipCountTooLow
  else
    let chip_repair_cost := profile.calculate_chip_repair chip_count
    match (if service_type = "mobile" then
            _calculate_mobile_fee service_type distance_miles profile
          else .ok 0) with
    | .error e => .error e
    | .ok mobile_fee =>
      let subtotal := chip_repair_cost + mobile_fee
      let tax : ℚ := 0
      .ok { shop_id := shop.id
            shop_name := shop.name
            chip_count := chip_count
            chip_repair_cost := chip_repair_cost
            mobile_fee := mobile_fee
            subtotal := subtotal
            tax := tax
            total := subtotal + tax
            line_items := _build_chip_repair_line_items chip_count profile mobile_fee }

end PricingService

/-- Embedding of `vehicles.services.vehicle_lookup.VehicleLookupError`
(message omitted). -/
structure VehicleLookupError where
  error_type : String
  recoverable : Bool
deriving DecidableEq

/-- `NHTSAClient._parse_response`, after the year/make/model/body-style
fields have been extracted from the JSON payload (missing year parses to
`0`, missing make/model to `""`).  The result is always flagged
`needs_calibration_review` with `"medium"` confidence, downgraded to
manual review and `"low"` confidence when year, make or model is missing. -/
def NHTSAClient.parse_response (vin : String) (year : Int) (make model : String)
    (body_style trim : Option String) : VehicleLookupResult :=
  let result := VehicleLookupResult.post_init
    { source := .nhtsa_nags
      vin := vin
      year := year
      make := make
      model := model
      body_style := body_style
      trim := trim
      parts := []
      needs_part_selection := false
      needs_calibration_review := true
      needs_manual_review := false
      confidence := .medium
      review_reason := some "No calibration data available (NHTSA/NAGS fallback)" }
  if year = 0 ∨ make = "" ∨ model = "" then
    { result with
      needs_manual_review := true
      confidence := .low
      review_reason := some ("Incomplete vehicle data from NHTSA (Year: "
        ++ toString year ++ ", Make: " ++ make ++ ", Model: " ++ model ++ ")") }
  else result

namespace VehicleLookupService

/-- `VehicleLookupService._build_review_reason`. -/
def _build_review_reason (parts : List GlassPart) (has_calibration : Bool) :
    Option String :=
  let missing_price := parts.filter (fun p => p.nags_list_price.isNone)
  let reasons : List String :=
    (if parts.length > 1 then
      ["Multiple parts available (" ++ toString parts.length ++ " options)"] else [])
    ++ (if parts.length = 0 then ["No parts found"] else [])
    ++ (if has_calibration = false ∧ parts ≠ [] then
      ["No calibration data (NHTSA/NAGS fallback)"] else [])
    ++ (if missing_price ≠ [] then
      [toString missing_price.length ++ " part(s) missing NAGS pricing"] else [])
  if reasons = [] then none else some (String.intercalate "; " reasons)

/-- `VehicleLookupService._fallback_lookup_by_vin`: the NHTSA + NAGS path.
The two external calls are modelled by their outcomes: `nhtsa_outcome` is
`none` when `NHTSAClient.decode_vin` raises `NHTSAAPIError`, and
`nags_outcome` is `none` when `NAGSClient.lookup_parts_by_vehicle` raises
`NAGSLookupError`.  With complete vehicle data the NAGS parts are merged
into the NHTSA result and the selection/manual-review flags updated. -/
def _fallback_lookup_by_vin (nhtsa_outcome : Option VehicleLookupResult)
    (nags_outcome : Option (List GlassPart)) :
    Except VehicleLookupError VehicleLookupResult :=
  match nhtsa_outcome with
  | none => .error { error_type := "not_found", recoverable := false }
  | some nhtsa_result =>
    if nhtsa_result.year ≠ 0 ∧ nhtsa_result.make ≠ "" ∧ nhtsa_result.model ≠ "" then
      match nags_outcome with
      | some parts =>
        let r1 := { nhtsa_result with parts := parts }
        let r2 := if parts.length > 1 then { r1 with needs_part_selection := true }
                  else r1
        let r3 := if parts.length = 0 then
                    { r2 with needs_manual_review := true, confidence := .low }
                  else r2
        .ok { r3 with review_reason := _build_review_reason parts false }
      | none =>
        .ok { nhtsa_result with
              needs_manual_review := true
              confidence := .low
              review_reason := some "NAGS lookup failed" }
    else .ok nhtsa_result

end VehicleLookupService

/-- Labor-hours and hardware flags returned by
`NAGSClient.get_glass_config` for one part number. -/
structure NagsGlassConfig where
  nags_labor : ℚ := 3/2
  moulding_required : Bool := false
  clips_required : Bool := false
deriving DecidableEq

/-- `NAGSClient.enrich_autobolt_part`: fill the list price (only when the
looked-up price is truthy, i.e. nonzero), the tube quantity (only when
still at its default) and the labor/hardware configuration.  The three
NAGS database reads are modelled as lookup functions. -/
def NAGSClient.enrich_autobolt_part (price_of : String → Option ℚ)
    (tube_of : String → Option ℚ) (config_of : String → NagsGlassConfig)
    (part : GlassPart) : GlassPart :=
  if part.nags_part_number = "" then part
  else
    let p1 :=
      match price_of part.nags_part_number with
      | some price => if price ≠ 0 then { part with nags_list_price := some price }
                      else part
      | none => part
    let p2 :=
      if p1.tube_qty = 3/2 then
        match tube_of p1.nags_part_number with
        | some t => { p1 with tube_qty := t }
        | none => p1
      else p1
    let config := config_of p2.nags_part_number
    { p2 with
      nags_labor := config.nags_labor
      moulding_required := config.moulding_required
      clips_required := config.clips_required }

/-- `VehicleLookupService._enrich_with_nags_pricing`: enrich every part that
has a part number and no list price yet; the part list itself is kept. -/
def VehicleLookupService._enrich_with_nags_pricing (price_of : String → Option ℚ)
    (tube_of : String → Option ℚ) (config_of : String → NagsGlassConfig)
    (result : VehicleLookupResult) : VehicleLookupResult :=
  { result with
    parts := result.parts.map (fun part =>
      if part.nags_part_number ≠ "" ∧ part.nags_list_price = none then
        NAGSClient.enrich_autobolt_part price_of tube_of config_of part
      else part) }

/-- The part pre-selection step of `_generate_replacement_quote`
(`quotes/tasks.py`): when the frontend supplied a part number and the
lookup returned parts, narrow the part list to the matching part; the
review flags are not touched. -/
def apply_part_selection (nags_part_number : Option String)
    (lookup_result : VehicleLookupResult) : VehicleLookupResult :=
  match nags_part_number with
  | none => lookup_result
  | some n =>
    if n ≠ "" ∧ lookup_result.parts ≠ [] then
      match lookup_result.parts.find? (fun p => p.nags_part_number == n) with
      | some selected => { lookup_result with parts := [selected] }
      | none => lookup_result
    else lookup_result

/-- Cache key of `vehicles.models.AutoboltAPICache` (the `unique_together`
columns). -/
structure CacheKey where
  request_type : String
  request_key : String
  country : String
  kind : String
deriving DecidableEq

/-- One `AutoboltAPICache` row.  The JSON response payload is abstracted as
a string blob; timestamps are integers (`expires_at = created_at + ttl`). -/
structure CacheEntry where
  key : CacheKey
  response_data : String
  http_status : Int
  expires_at : Int
deriving DecidableEq

/-- The cache table: at most one row per key (enforced by
`unique_together`; maintained by the two operations below). -/
abbrev CacheStore := List CacheEntry

/-- `AutoboltAPICache.is_expired` at observation time `now`. -/
def CacheEntry.is_expired (now : Int) (e : CacheEntry) : Bool :=
  now > e.expires_at

/-- `AutoboltAPICache.is_valid`: not expired and a successful (200)
response. -/
def CacheEntry.is_valid (now : Int) (e : CacheEntry) : Bool :=
  !e.is_expired now && e.http_status == 200

/-- `AutoboltAPICache.get_cached_response`: return the row for the key when
it is valid; otherwise delete it and report a miss.  Returns the lookup
outcome together with the updated table. -/
def AutoboltAPICache.get_cached_response (now : Int) (k : CacheKey) (s : CacheStore) :
    Option CacheEntry × CacheStore :=
  match s.find? (fun e => e.key == k) with
  | none => (none, s)
  | some e =>
    if e.is_valid now then (some e, s)
    else (none, s.filter (fun e2 => !(e2.key == k)))

/-- `AutoboltAPICache.cache_response`: `update_or_create` on the key —
unconditionally replace any row for the key with the new payload, status
and expiry (`now + ttl`). -/
def AutoboltAPICache.cache_response (now : Int) (k : CacheKey) (response_data : String)
    (http_status : Int) (ttl : Int) (s : CacheStore) : CacheStore :=
  { key := k, response_data := response_data, http_status := http_status,
    expires_at := now + ttl } :: s.filter (fun e => !(e.key == k))

/-- Quote lifecycle states (`Quote.STATE_CHOICES`). -/
inductive QuoteState where
  | draft
  | pending_validation
  | sent
  | customer_approved
  | scheduled
  | converted
  | expired
  | rejected
deriving DecidableEq

/-- `Quote.send_to_customer`: the django-fsm transition with sources
`draft`/`pending_validation` and target `sent`; `none` models
`TransitionNotAllowed` from any other state. -/
def Quote.send_to_customer : QuoteState → Option QuoteState
  | .draft => some .sent
  | .pending_validation => some .sent
  | _ => none

/-- The two customer notifications the generation pipeline can trigger
(`send_quote_email` / `send_quote_pending_review_email`). -/
inductive QuoteNotification where
  | quote_ready
  | pending_review
deriving DecidableEq

/-- The auto-send decision at the end of `_generate_replacement_quote`:
the quote record is created in `pending_validation`; when the computed
pricing needs no review it is moved through `send_to_customer` and the
"quote ready" email is queued, otherwise it is left as created and the
"we're reviewing" email is queued.  Returns the final state and the
notification. -/
def replacement_finalize (quote_pricing : QuotePricing) :
    QuoteState × QuoteNotification :=
  let created := QuoteState.pending_validation
  if quote_pricing.needs_review = false then
    ((Quote.send_to_customer created).getD created, .quote_ready)
  else (created, .pending_review)

/-! ### Helper lemmas -/

theorem check_price_bounds_glass_cost (qp : QuotePricing) :
    qp.check_price_bounds.glass_cost = qp.glass_cost := by
  unfold QuotePricing.check_price_bounds; split <;> rfl

theorem check_price_bounds_labor_cost (qp : QuotePricing) :
    qp.check_price_bounds.labor_cost = qp.labor_cost := by
  unfold QuotePricing.check_price_bounds; split <;> rfl

theorem check_price_bounds_kit_fee (qp : QuotePricing) :
    qp.check_price_bounds.kit_fee = qp.kit_fee := by
  unfold QuotePricing.check_price_bounds; split <;> rfl

theorem check_price_bounds_moulding_fee (qp : QuotePricing) :
    qp.check_price_bounds.moulding_fee = qp.moulding_fee := by
  unfold QuotePricing.check_price_bounds; split <;> rfl

theorem check_price_bounds_hardware_fee (qp : QuotePricing) :
    qp.check_price_bounds.hardware_fee = qp.hardware_fee := by
  unfold QuotePricing.check_price_bounds; split <;> rfl

theorem check_price_bounds_calibration_fee (qp : QuotePricing) :
    qp.check_price_bounds.calibration_fee = qp.calibration_fee := by
  unfold QuotePricing.check_price_bounds; split <;> rfl

theorem check_price_bounds_mobile_fee (qp : QuotePricing) :
    qp.check_price_bounds.mobile_fee = qp.mobile_fee := by
  unfold QuotePricing.check_price_bounds; split <;> rfl

theorem check_price_bounds_subtotal (qp : QuotePricing) :
    qp.check_price_bounds.subtotal = qp.subtotal := by
  unfold QuotePricing.check_price_bounds; split <;> rfl

theorem check_price_bounds_tax (qp : QuotePricing) :
    qp.check_price_bounds.tax = qp.tax := by
  unfold QuotePricing.check_price_bounds; split <;> rfl

theorem check_price_bounds_total (qp : QuotePricing) :
    qp.check_price_bounds.total = qp.total := by
  unfold QuotePricing.check_price_bounds; split <;> rfl

theorem check_price_bounds_missing_nags_price (qp : QuotePricing) :
    qp.check_price_bounds.missing_nags_price = qp.missing_nags_price := by
  unfold QuotePricing.check_price_bounds; split <;> rfl

/-- Success inversion for `calculate_quote`: the returned record is the
bound-checked quote built from the head part and the computed mobile fee. -/
theorem calculate_quote_ok_inv (profile : PricingProfile) (lk : VehicleLookupResult)
    (shop : Shop) (st : String) (dist : Option ℚ) (part : GlassPart)
    (rest : List GlassPart) (qp : QuotePricing)
    (hp : lk.parts = part :: rest)
    (h : PricingService.calculate_quote profile lk shop st dist = .ok qp) :
    ∃ mobile_fee, PricingService._calculate_mobile_fee st dist profile = .ok mobile_fee
      ∧ qp = (PricingService.mk_quote_pricing profile lk shop part
          mobile_fee).check_price_bounds := by
  unfold PricingService.calculate_quote at h
  rw [hp] at h
  cases hm : PricingService._calculate_mobile_fee st dist profile with
  | error e => rw [hm] at h; exact absurd h (by simp)
  | ok mf =>
    rw [hm] at h
    simp only [Except.ok.injEq] at h
    exact ⟨mf, rfl, h.symm⟩

/-- A concrete quote pricing record used to instantiate theorems on
concrete inputs (all review flags clear, total inside the band). -/
def sampleQuotePricing : QuotePricing :=
  { vin := "1FTFW1ET5DFC10312"
    year := 2020
    make := "Honda"
    model := "Civic"
    body_style := none
    nags_part_number := "FW03898"
    part_description := "Standard Glass"
    features := []
    photo_urls := []
    shop_id := 1
    shop_name := "Main Street Glass"
    glass_cost := 208
    labor_cost := 150
    kit_fee := 46
    moulding_fee := 0
    hardware_fee := 0
    calibration_fee := 0
    mobile_fee := 196
    subtotal := 600
    tax := 0
    total := 600
    line_items := []
    needs_part_selection := false
    needs_calibration_review := false
    needs_manual_review := false
    confidence := .high
    review_reason := none }

/-- A concrete shop record for witnesses. -/
def sampleShop : Shop := { id := 1, name := "Main Street Glass" }

/-! ### Claims -/

/-- C1: in the replacement generation pipeline the quote is created in
`pending_validation`; when the computed `QuotePricing.needs_review` is
false it is transitioned to `sent` with the "quote ready" notification,
when it is true it stays in `pending_validation` with the "we're
reviewing" notification — a pricing with `needs_review` true is never
automatically moved to `sent`. -/
theorem quote_auto_send_iff_no_review (qp : QuotePricing) :
    (qp.needs_review = false →
      replacement_finalize qp = (QuoteState.sent, QuoteNotification.quote_ready))
    ∧ (qp.needs_review = true →
      replacement_finalize qp
        = (QuoteState.pending_validation, QuoteNotification.pending_review))
    ∧ (qp.needs_review = true → (replacement_finalize qp).1 ≠ QuoteState.sent) := by
  refine ⟨fun h => ?_, fun h => ?_, fun h => ?_⟩ <;>
    simp [replacement_finalize, h, Quote.send_to_customer]

/-- Witness for C1 at concrete review outcomes. -/
theorem quote_auto_send_iff_no_review_witness :
    sampleQuotePricing.needs_review = false
    ∧ replacement_finalize sampleQuotePricing
        = (QuoteState.sent, QuoteNotification.quote_ready)
    ∧ ({ sampleQuotePricing with needs_manual_review := true }
        : QuotePricing).needs_review = true
    ∧ replacement_finalize { sampleQuotePricing with needs_manual_review := true }
        = (QuoteState.pending_validation, QuoteNotification.pending_review)
    ∧ (replacement_finalize
        { sampleQuotePricing with needs_manual_review := true }).1
        ≠ QuoteState.sent :=
  ⟨rfl,
   (quote_auto_send_iff_no_review sampleQuotePricing).1 rfl,
   rfl,
   (quote_auto_send_iff_no_review _).2.1 rfl,
   (quote_auto_send_iff_no_review
     { sampleQuotePricing with needs_manual_review := true }).2.2 rfl⟩

/-- C8: `check_price_bounds` leaves the record untouched when the total is
inside the fixed 500–1200 band; outside the band it sets
`price_out_of_bounds` and appends the bound-violation text after any
truthy prior review reason (separator `"; "`), installing the text on a
falsy prior reason. -/
theorem price_bounds_check_spec (qp : QuotePricing) :
    (REPLACEMENT_PRICE_MIN ≤ qp.total → qp.total ≤ REPLACEMENT_PRICE_MAX →
      qp.check_price_bounds = qp)
    ∧ (qp.total < REPLACEMENT_PRICE_MIN ∨ qp.total > REPLACEMENT_PRICE_MAX →
        qp.check_price_bounds.price_out_of_bounds = true
        ∧ (∀ r, qp.review_reason = some r → r ≠ "" →
            qp.check_price_bounds.review_reason
              = some (r ++ "; " ++ boundReason qp.total))
        ∧ (qp.review_reason = none →
            qp.check_price_bounds.review_reason = some (boundReason qp.total))
        ∧ (qp.review_reason = some "" →
            qp.check_price_bounds.review_reason = some (boundReason qp.total))) := by
  constructor
  · intro h1 h2
    unfold QuotePricing.check_price_bounds
    rw [if_neg]
    push_neg
    exact ⟨by simpa using h1, by simpa using h2⟩
  · intro h
    refine ⟨?_, ?_, ?_, ?_⟩
    · unfold QuotePricing.check_price_bounds
      rw [if_pos h]
    · intro r hr hne
      unfold QuotePricing.check_price_bounds
      rw [if_pos h]
      simp [hr, hne]
    · intro hr
      unfold QuotePricing.check_price_bounds
      rw [if_pos h]
      simp [hr]
    · intro hr
      unfold QuotePricing.check_price_bounds
      rw [if_pos h]
      simp [hr]

/-- Witness for C8: an in-band total is untouched; a low total with an
existing reason gets the bound text appended, and one with no reason gets
the bound text installed. -/
theorem price_bounds_check_spec_witness :
    sampleQuotePricing.check_price_bounds = sampleQuotePricing
    ∧ ({ sampleQuotePricing with total := 300, review_reason := some "Multiple parts" }
        : QuotePricing).check_price_bounds.price_out_of_bounds = true
    ∧ ({ sampleQuotePricing with total := 300, review_reason := some "Multiple parts" }
        : QuotePricing).check_price_bounds.review_reason
        = some ("Multiple parts" ++ "; " ++ boundReason 300)
    ∧ ({ sampleQuotePricing with total := 1300 }
        : QuotePricing).check_price_bounds.review_reason
        = some (boundReason 1300) :=
  ⟨(price_bounds_check_spec sampleQuotePricing).1 (by norm_num [sampleQuotePricing,
      REPLACEMENT_PRICE_MIN]) (by norm_num [sampleQuotePricing, REPLACEMENT_PRICE_MAX]),
   ((price_bounds_check_spec _).2 (by norm_num [REPLACEMENT_PRICE_MIN])).1,
   ((price_bounds_check_spec _).2 (by norm_num [REPLACEMENT_PRICE_MIN])).2.1
     "Multiple parts" rfl (by decide),
   ((price_bounds_check_spec _).2 (by norm_num [REPLACEMENT_PRICE_MAX])).2.2.1 rfl⟩

/-- C5: chip-repair pricing succeeds only for chip counts 1–3: counts above
3 are rejected with the use-replacement `PricingError`, counts below 1
with a `PricingError`, and a successful calculation sums the WR-1/2/3 tier
prices for the chips present and adds the mobile fee into the total. -/
theorem chip_repair_range_and_sum (profile : PricingProfile) (shop : Shop)
    (service_type : String) (distance_miles : Option ℚ) (chip_count : Int) :
    (3 < chip_count →
      PricingService.calculate_chip_repair profile chip_count shop service_type
        distance_miles = .error .tooManyChips)
    ∧ (chip_count < 1 →
      PricingService.calculate_chip_repair profile chip_count shop service_type
        distance_miles = .error .chipCountTooLow)
    ∧ (∀ cp, PricingService.calculate_chip_repair profile chip_count shop service_type
        distance_miles = .ok cp →
        (1 ≤ chip_count ∧ chip_count ≤ 3)
        ∧ cp.chip_repair_cost = profile.chip_repair_wr1
            + (if 2 ≤ chip_count then profile.chip_repair_wr2 else 0)
            + (if chip_count = 3 then profile.chip_repair_wr3 else 0)
        ∧ cp.total = cp.chip_repair_cost + cp.mobile_fee) := by
  refine ⟨fun h => ?_, fun h => ?_, fun cp h => ?_⟩
  · unfold PricingService.calculate_chip_repair
    rw [if_pos (by omega)]
  · unfold PricingService.calculate_chip_repair
    rw [if_neg (by omega), if_pos h]
  · unfold PricingService.calculate_chip_repair at h
    by_cases h3 : chip_count > 3
    · rw [if_pos h3] at h; exact absurd h (by simp)
    · rw [if_neg h3] at h
      by_cases h1 : chip_count < 1
      · rw [if_pos h1] at h; exact absurd h (by simp)
      · rw [if_neg h1] at h
        cases hm : (if service_type = "mobile" then
            PricingService._calculate_mobile_fee service_type distance_miles profile
          else Except.ok 0) with
        | error e => rw [hm] at h; exact absurd h (by simp)
        | ok mf =>
          rw [hm] at h
          simp only [Except.ok.injEq] at h
          subst h
          refine ⟨⟨by omega, by omega⟩, ?_, by simp⟩
          simp only [PricingProfile.calculate_chip_repair, if_neg (by omega : ¬chip_count ≤ 0)]
          have hc : chip_count = 1 ∨ chip_count = 2 ∨ chip_count = 3 := by omega
          rcases hc with hc | hc | hc <;> subst hc <;> norm_num

/-- Projection of a successful chip-repair outcome, with a dummy record on
the error side; used to apply theorems to concretely computed results. -/
def chipOrDefault (e : Except PricingError ChipRepairPricing) : ChipRepairPricing :=
  match e with
  | .ok cp => cp
  | .error _ =>
    { shop_id := 0, shop_name := "", chip_count := 0, chip_repair_cost := 0,
      mobile_fee := 0, subtotal := 0, tax := 0, total := 0, line_items := [] }

/-- Witness for C5 on the default profile: 4 and 0 chips are rejected, and
2 chips price at 49 + 29 = 78. -/
theorem chip_repair_range_and_sum_witness :
    PricingService.calculate_chip_repair {} 4 sampleShop "in_store" none
      = .error .tooManyChips
    ∧ PricingService.calculate_chip_repair {} 0 sampleShop "in_store" none
      = .error .chipCountTooLow
    ∧ PricingService.calculate_chip_repair {} 2 sampleShop "in_store" none
      = .ok (chipOrDefault
          (PricingService.calculate_chip_repair {} 2 sampleShop "in_store" none))
    ∧ (chipOrDefault
        (PricingService.calculate_chip_repair {} 2 sampleShop "in_store" none)
        ).chip_repair_cost = 78
    ∧ (chipOrDefault
        (PricingService.calculate_chip_repair {} 2 sampleShop "in_store" none)).total
      = (chipOrDefault
          (PricingService.calculate_chip_repair {} 2 sampleShop "in_store" none)
          ).chip_repair_cost
        + (chipOrDefault
            (PricingService.calculate_chip_repair {} 2 sampleShop "in_store" none)
            ).mobile_fee :=
  ⟨(chip_repair_range_and_sum {} sampleShop "in_store" none 4).1 (by norm_num),
   (chip_repair_range_and_sum {} sampleShop "in_store" none 0).2.1 (by norm_num),
   rfl,
   (((chip_repair_range_and_sum {} sampleShop "in_store" none 2).2.2 _
      rfl).2.1).trans (by norm_num),
   ((chip_repair_range_and_sum {} sampleShop "in_store" none 2).2.2 _ rfl).2.2⟩

/-- A concrete part whose tube quantity and labor hours are both 1. -/
def kitPartA : GlassPart :=
  { nags_part_number := "DW01111", prefix_cd := "DW", nags_list_price := some 400,
    tube_qty := 1, nags_labor := 1 }

/-- The same part with tube quantity 3 (labor hours unchanged). -/
def kitPartB : GlassPart := { kitPartA with tube_qty := 3 }

/-- Counterexample to C3: the kit fee tier is keyed by `tube_qty`, not by
the labor-hours field — two parts identical except for tube quantity get
different kit fees on the default profile, and the fee for labor hours 1
is not the 1-hour tier price. -/
theorem kit_fee_labor_hours_counterexample :
    kitPartB = { kitPartA with tube_qty := 3 }
    ∧ kitPartB.nags_labor = kitPartA.nags_labor
    ∧ PricingService._calculate_kit_fee kitPartA {} = 23
    ∧ PricingService._calculate_kit_fee kitPartB {} = 46
    ∧ PricingService._calculate_kit_fee kitPartA {}
        ≠ PricingService._calculate_kit_fee kitPartB {}
    ∧ ({} : PricingProfile).kit_fee_1_hour = 23 := by
  refine ⟨rfl, rfl, ?_, ?_, ?_, rfl⟩ <;>
    norm_num [PricingService._calculate_kit_fee, PricingProfile.get_kit_fee,
      kitPartA, kitPartB]

/-- C3 (amended): the kit fee is the profile's tier-table value looked up
by the part's urethane tube-quantity breakpoint (≤1, ≤1.5, ≤2, ≤2.5, else
the 3+ tier) and is independent of the part's labor-hours field: two parts
identical except for labor hours receive the same kit fee. -/
theorem kit_fee_by_tube_qty (profile : PricingProfile) (part : GlassPart) :
    PricingService._calculate_kit_fee part profile
      = profile.get_kit_fee part.tube_qty
    ∧ (∀ hours, PricingService._calculate_kit_fee
        { part with nags_labor := hours } profile
        = PricingService._calculate_kit_fee part profile)
    ∧ (part.tube_qty ≤ 1 →
        PricingService._calculate_kit_fee part profile = profile.kit_fee_1_hour)
    ∧ (1 < part.tube_qty → part.tube_qty ≤ 3/2 →
        PricingService._calculate_kit_fee part profile = profile.kit_fee_1_5_hour)
    ∧ (3/2 < part.tube_qty → part.tube_qty ≤ 2 →
        PricingService._calculate_kit_fee part profile = profile.kit_fee_2_hour)
    ∧ (2 < part.tube_qty → part.tube_qty ≤ 5/2 →
        PricingService._calculate_kit_fee part profile = profile.kit_fee_2_5_hour)
    ∧ (5/2 < part.tube_qty →
        PricingService._calculate_kit_fee part profile
          = profile.kit_fee_3_plus_hour) := by
  refine ⟨rfl, fun hours => rfl, fun h1 => ?_, fun h1 h2 => ?_, fun h1 h2 => ?_,
    fun h1 h2 => ?_, fun h1 => ?_⟩ <;>
    simp only [PricingService._calculate_kit_fee, PricingProfile.get_kit_fee]
  · rw [if_pos h1]
  · rw [if_neg (by linarith), if_pos h2]
  · rw [if_neg (by linarith), if_neg (by linarith), if_pos h2]
  · rw [if_neg (by linarith), if_neg (by linarith), if_neg (by linarith), if_pos h2]
  · rw [if_neg (by linarith), if_neg (by linarith), if_neg (by linarith),
      if_neg (by linarith)]

/-- Witness for C3 (amended) across the five tube-quantity tiers and a
labor-hours change. -/
theorem kit_fee_by_tube_qty_witness :
    PricingService._calculate_kit_fee { kitPartA with nags_labor := 4 } {}
      = PricingService._calculate_kit_fee kitPartA {}
    ∧ PricingService._calculate_kit_fee kitPartA {} = ({} : PricingProfile).kit_fee_1_hour
    ∧ PricingService._calculate_kit_fee { kitPartA with tube_qty := 5/4 } {}
      = ({} : PricingProfile).kit_fee_1_5_hour
    ∧ PricingService._calculate_kit_fee { kitPartA with tube_qty := 7/4 } {}
      = ({} : PricingProfile).kit_fee_2_hour
    ∧ PricingService._calculate_kit_fee { kitPartA with tube_qty := 9/4 } {}
      = ({} : PricingProfile).kit_fee_2_5_hour
    ∧ PricingService._calculate_kit_fee { kitPartA with tube_qty := 3 } {}
      = ({} : PricingProfile).kit_fee_3_plus_hour :=
  ⟨(kit_fee_by_tube_qty {} kitPartA).2.1 4,
   (kit_fee_by_tube_qty {} kitPartA).2.2.1 (by norm_num [kitPartA]),
   (kit_fee_by_tube_qty {} _).2.2.2.1 (by norm_num [kitPartA]) (by norm_num [kitPartA]),
   (kit_fee_by_tube_qty {} _).2.2.2.2.1 (by norm_num [kitPartA]) (by norm_num [kitPartA]),
   (kit_fee_by_tube_qty {} _).2.2.2.2.2.1 (by norm_num [kitPartA]) (by norm_num [kitPartA]),
   (kit_fee_by_tube_qty {} _).2.2.2.2.2.2 (by norm_num [kitPartA])⟩

/-- A profile whose extended-band base differs from its base mobile fee. -/
def extendedBaseProfile : PricingProfile := { mobile_fee_extended_base := 100 }

/-- A profile whose maximum mobile distance lies below the 30-mile band. -/
def shortRangeProfile : PricingProfile := { mobile_max_distance := 20 }

/-- Counterexample to C4: in the 30-to-max band the fee is computed from
the separate `mobile_fee_extended_base` field, not from the base fee
(distance 45 on a profile with base 49 and extended base 100 yields 122.50,
not 49 + 1.50 × 15 = 71.50); and a distance of 25 miles with maximum 20 is
rejected rather than charged the base fee. -/
theorem mobile_fee_base_counterexample :
    extendedBaseProfile.mobile_fee_base = 49
    ∧ extendedBaseProfile.mobile_fee_per_mile = 3/2
    ∧ PricingService._calculate_mobile_fee "mobile" (some 45) extendedBaseProfile
        = .ok (245/2)
    ∧ (245/2 : ℚ) ≠ extendedBaseProfile.mobile_fee_base
        + extendedBaseProfile.mobile_fee_per_mile * (45 - 30)
    ∧ PricingService._calculate_mobile_fee "mobile" (some 25) shortRangeProfile
        = .error (.distanceExceedsMax 25 20)
    ∧ PricingService._calculate_mobile_fee "mobile" (some 25) shortRangeProfile
        ≠ .ok shortRangeProfile.mobile_fee_base := by
  refine ⟨rfl, rfl, ?_, by norm_num [extendedBaseProfile], ?_, ?_⟩
  · show Except.ok _ = _
    rw [Except.ok.injEq]
    norm_num [extendedBaseProfile]
  · rfl
  · intro h
    exact Except.noConfusion
      ((rfl : PricingService._calculate_mobile_fee "mobile" (some 25)
        shortRangeProfile = Except.error (.distanceExceedsMax 25 20)).symm.trans h)

/-- Reduction of the mobile fee on the mobile/known-distance path to the
profile tier lookup. -/
theorem _calculate_mobile_fee_mobile_some (profile : PricingProfile) (d : ℚ) :
    PricingService._calculate_mobile_fee "mobile" (some d) profile
      = match profile.get_mobile_fee d with
        | none => .error (.distanceExceedsMax d profile.mobile_max_distance)
        | some fee => .ok fee := rfl

/-- C4 (amended): the mobile fee is zero for non-mobile service and the
base fee when the distance is unknown; for a known distance the
out-of-range check comes first (a `PricingError` whenever the distance
exceeds the profile maximum, even below 30 miles), then distances up to 30
miles get the base fee and distances beyond 30 get the extended-band base
(a separate profile field, equal to the base fee on the default profile)
plus the per-mile surcharge.  On the default profile this gives the
quoted examples 49, 71.50 and the error at 70 miles. -/
theorem mobile_fee_spec (profile : PricingProfile) (service_type : String)
    (distance_miles : Option ℚ) :
    (service_type ≠ "mobile" →
      PricingService._calculate_mobile_fee service_type distance_miles profile = .ok 0)
    ∧ (service_type = "mobile" → distance_miles = none →
      PricingService._calculate_mobile_fee service_type distance_miles profile
        = .ok profile.mobile_fee_base)
    ∧ (∀ d, service_type = "mobile" → distance_miles = some d →
        ((profile.mobile_max_distance : ℚ) < d →
          PricingService._calculate_mobile_fee service_type distance_miles profile
            = .error (.distanceExceedsMax d profile.mobile_max_distance))
        ∧ (d ≤ 30 → d ≤ (profile.mobile_max_distance : ℚ) →
          PricingService._calculate_mobile_fee service_type distance_miles profile
            = .ok profile.mobile_fee_base)
        ∧ (30 < d → d ≤ (profile.mobile_max_distance : ℚ) →
          PricingService._calculate_mobile_fee service_type distance_miles profile
            = .ok (profile.mobile_fee_extended_base
                + profile.mobile_fee_per_mile * (d - 30))))
    ∧ PricingService._calculate_mobile_fee "mobile" (some 10) {} = .ok 49
    ∧ PricingService._calculate_mobile_fee "mobile" (some 45) {} = .ok (143/2)
    ∧ PricingService._calculate_mobile_fee "mobile" (some 70) {}
        = .error (.distanceExceedsMax 70 60) := by
  refine ⟨fun h => ?_, fun h hd => ?_, fun d h hd => ⟨fun hgt => ?_, fun h30 hle => ?_,
    fun h30 hle => ?_⟩, ?_, ?_, ?_⟩
  · unfold PricingService._calculate_mobile_fee
    rw [if_pos h]
  · subst h hd
    rfl
  · subst h hd
    have hgt2 : d > (profile.mobile_max_distance : ℚ) := hgt
    have hg : profile.get_mobile_fee d = none := by
      unfold PricingProfile.get_mobile_fee
      rw [if_pos hgt2]
    rw [_calculate_mobile_fee_mobile_some, hg]
  · subst h hd
    have hn : ¬(d > (profile.mobile_max_distance : ℚ)) := not_lt.mpr hle
    have hg : profile.get_mobile_fee d = some profile.mobile_fee_base := by
      unfold PricingProfile.get_mobile_fee
      rw [if_neg hn, if_pos h30]
    rw [_calculate_mobile_fee_mobile_some, hg]
  · subst h hd
    have hn : ¬(d > (profile.mobile_max_distance : ℚ)) := not_lt.mpr hle
    have h30n : ¬(d ≤ 30) := not_le.mpr h30
    have hg : profile.get_mobile_fee d
        = some (profile.mobile_fee_extended_base
            + profile.mobile_fee_per_mile * (d - 30)) := by
      unfold PricingProfile.get_mobile_fee
      rw [if_neg hn, if_neg h30n]
    rw [_calculate_mobile_fee_mobile_some, hg]
  · have hg : ({} : PricingProfile).get_mobile_fee 10 = some 49 := by
      unfold PricingProfile.get_mobile_fee
      norm_num
    rw [_calculate_mobile_fee_mobile_some, hg]
  · have hg : ({} : PricingProfile).get_mobile_fee 45 = some (143/2) := by
      unfold PricingProfile.get_mobile_fee
      norm_num
    rw [_calculate_mobile_fee_mobile_some, hg]
  · have hg : ({} : PricingProfile).get_mobile_fee 70 = none := by
      unfold PricingProfile.get_mobile_fee
      norm_num
    rw [_calculate_mobile_fee_mobile_some, hg]

/-- Witness for C4 (amended) on concrete service types, distances and the
default profile. -/
theorem mobile_fee_spec_witness :
    PricingService._calculate_mobile_fee "in_store" (some 10) {} = .ok 0
    ∧ PricingService._calculate_mobile_fee "mobile" none {}
        = .ok ({} : PricingProfile).mobile_fee_base
    ∧ PricingService._calculate_mobile_fee "mobile" (some 70) {}
        = .error (.distanceExceedsMax 70 ({} : PricingProfile).mobile_max_distance)
    ∧ PricingService._calculate_mobile_fee "mobile" (some 10) {}
        = .ok ({} : PricingProfile).mobile_fee_base
    ∧ PricingService._calculate_mobile_fee "mobile" (some 45) {}
        = .ok (({} : PricingProfile).mobile_fee_extended_base
            + ({} : PricingProfile).mobile_fee_per_mile * (45 - 30)) :=
  ⟨(mobile_fee_spec {} "in_store" (some 10)).1 (by decide),
   (mobile_fee_spec {} "mobile" none).2.1 rfl rfl,
   ((mobile_fee_spec {} "mobile" (some 70)).2.2.1 70 rfl rfl).1 (by norm_num),
   ((mobile_fee_spec {} "mobile" (some 10)).2.2.1 10 rfl rfl).2.1 (by norm_num)
     (by norm_num),
   ((mobile_fee_spec {} "mobile" (some 45)).2.2.1 45 rfl rfl).2.2 (by norm_num)
     (by norm_num)⟩

/-- A list from which every entry for a key has been filtered out has no
entry for that key. -/
theorem find_key_filter_none (k : CacheKey) (l : CacheStore) :
    (l.filter (fun e => !(e.key == k))).find? (fun e => e.key == k) = none := by
  induction l with
  | nil => rfl
  | cons e t ih =>
    by_cases h : e.key = k
    · simp [List.filter_cons, h, ih]
    · simp [List.filter_cons, h, List.find?, ih]

/-- A concrete cache key for witnesses. -/
def sampleCacheKey : CacheKey :=
  { request_type := "vin_decode", request_key := "1FTFW1ET5DFC10312",
    country := "US", kind := "Windshield" }

/-- Counterexample to C9: a put that records a non-200 HTTP status is
stored but an immediate get of the same key reports a miss instead of
returning the payload. -/
theorem cache_non200_counterexample :
    (AutoboltAPICache.cache_response 0 sampleCacheKey "payload" 500 30 []).find?
        (fun e => e.key == sampleCacheKey)
      = some { key := sampleCacheKey, response_data := "payload",
               http_status := 500, expires_at := 30 }
    ∧ (AutoboltAPICache.get_cached_response 0 sampleCacheKey
        (AutoboltAPICache.cache_response 0 sampleCacheKey "payload" 500 30 [])).1
      = none := by
  exact ⟨by rfl, by rfl⟩

/-- C9 (amended): `put` overwrites the row for the key unconditionally
(last writer wins); an immediate `get` returns the stored payload when the
put recorded HTTP status 200 (the only status the provider client caches)
and a non-negative TTL, while a put recording a non-200 status is treated
as a miss; once the TTL has elapsed a `get` of the key reports a miss and
evicts the entry. -/
theorem cache_round_trip_spec (now : Int) (k : CacheKey) (payload : String)
    (status ttl : Int) (s : CacheStore) :
    (AutoboltAPICache.cache_response now k payload status ttl s).find?
        (fun e => e.key == k)
      = some { key := k, response_data := payload, http_status := status,
               expires_at := now + ttl }
    ∧ (status = 200 → 0 ≤ ttl →
        (AutoboltAPICache.get_cached_response now k
          (AutoboltAPICache.cache_response now k payload status ttl s)).1
        = some { key := k, response_data := payload, http_status := status,
                 expires_at := now + ttl })
    ∧ (∀ t, now + ttl < t →
        (AutoboltAPICache.get_cached_response t k
          (AutoboltAPICache.cache_response now k payload status ttl s)).1 = none
        ∧ ((AutoboltAPICache.get_cached_response t k
            (AutoboltAPICache.cache_response now k payload status ttl s)).2).find?
            (fun e => e.key == k) = none) := by
  have hfind : (AutoboltAPICache.cache_response now k payload status ttl s).find?
      (fun e => e.key == k)
      = some (⟨k, payload, status, now + ttl⟩ : CacheEntry) := by
    unfold AutoboltAPICache.cache_response
    simp [List.find?]
  have hred : ∀ t2 : Int, AutoboltAPICache.get_cached_response t2 k
      (AutoboltAPICache.cache_response now k payload status ttl s)
      = if CacheEntry.is_valid t2 ⟨k, payload, status, now + ttl⟩ = true then
          (some (⟨k, payload, status, now + ttl⟩ : CacheEntry),
           AutoboltAPICache.cache_response now k payload status ttl s)
        else
          (none, (AutoboltAPICache.cache_response now k payload status ttl s).filter
            (fun e2 => !(e2.key == k))) := by
    intro t2
    unfold AutoboltAPICache.get_cached_response
    rw [hfind]
  refine ⟨hfind, fun hst httl => ?_, fun t ht => ?_⟩
  · have hv : CacheEntry.is_valid now ⟨k, payload, status, now + ttl⟩ = true := by
      simp only [CacheEntry.is_valid, CacheEntry.is_expired, hst]
      simp only [Bool.and_eq_true, Bool.not_eq_true', decide_eq_false_iff_not,
        beq_self_eq_true, and_true, not_lt]
      omega
    rw [hred now, if_pos hv]
  · have hv : CacheEntry.is_valid t ⟨k, payload, status, now + ttl⟩ = false := by
      simp only [CacheEntry.is_valid, CacheEntry.is_expired]
      simp only [Bool.and_eq_false_iff, Bool.not_eq_false', decide_eq_true_eq]
      left
      omega
    constructor
    · rw [hred t, if_neg (by simp [hv])]
    · rw [hred t, if_neg (by simp [hv])]
      exact find_key_filter_none k _

/-- Witness for C9 (amended) at concrete times, payloads and two
successive writes to the same key. -/
theorem cache_round_trip_spec_witness :
    (AutoboltAPICache.cache_response 5 sampleCacheKey "payload2" 200 30
        (AutoboltAPICache.cache_response 0 sampleCacheKey "payload1" 200 30 [])).find?
        (fun e => e.key == sampleCacheKey)
      = some { key := sampleCacheKey, response_data := "payload2",
               http_status := 200, expires_at := 35 }
    ∧ (AutoboltAPICache.get_cached_response 5 sampleCacheKey
        (AutoboltAPICache.cache_response 5 sampleCacheKey "payload2" 200 30
          (AutoboltAPICache.cache_response 0 sampleCacheKey "payload1" 200 30 []))).1
      = some { key := sampleCacheKey, response_data := "payload2",
               http_status := 200, expires_at := 35 }
    ∧ (AutoboltAPICache.get_cached_response 36 sampleCacheKey
        (AutoboltAPICache.cache_response 5 sampleCacheKey "payload2" 200 30
          (AutoboltAPICache.cache_response 0 sampleCacheKey "payload1" 200 30 []))).1
      = none
    ∧ ((AutoboltAPICache.get_cached_response 36 sampleCacheKey
        (AutoboltAPICache.cache_response 5 sampleCacheKey "payload2" 200 30
          (AutoboltAPICache.cache_response 0 sampleCacheKey "payload1" 200 30 []))).2).find?
        (fun e => e.key == sampleCacheKey)
      = none :=
  ⟨(cache_round_trip_spec 5 sampleCacheKey "payload2" 200 30 _).1,
   (cache_round_trip_spec 5 sampleCacheKey "payload2" 200 30 _).2.1 rfl (by omega),
   ((cache_round_trip_spec 5 sampleCacheKey "payload2" 200 30 _).2.2 36 (by omega)).1,
   ((cache_round_trip_spec 5 sampleCacheKey "payload2" 200 30 _).2.2 36 (by omega)).2⟩

/-- `__post_init__` never changes the part list. -/
theorem post_init_parts (r : VehicleLookupResult) : r.post_init.parts = r.parts := by
  simp only [VehicleLookupResult.post_init]
  by_cases h1 : r.parts.length > 1 <;>
    by_cases h2 : optStrFalsy r.review_reason = true <;>
      simp only [h1, h2, if_true, if_false, optStrFalsy] <;>
        split <;> rfl

/-- `__post_init__` turns on `needs_part_selection` exactly when more than
one part is present, and otherwise keeps the constructed value. -/
theorem post_init_flag (r : VehicleLookupResult) :
    r.post_init.needs_part_selection
      = (r.needs_part_selection || decide (1 < r.parts.length)) := by
  simp only [VehicleLookupResult.post_init]
  by_cases h1 : r.parts.length > 1 <;>
    by_cases h2 : optStrFalsy r.review_reason = true <;>
      simp only [h1, h2, if_true, if_false, optStrFalsy] <;>
        split <;> simp [h1]

/-- A first concrete candidate part. -/
def partFW1 : GlassPart := { nags_part_number := "FW1" }

/-- A second concrete candidate part. -/
def partFW2 : GlassPart := { nags_part_number := "FW2" }

/-- A two-part lookup outcome as constructed by the primary provider
client (before `__post_init__`). -/
def preLookup : VehicleLookupResult :=
  { source := .autobolt, vin := "1FTFW1ET5DFC10312", year := 2020, make := "Honda",
    model := "Civic", parts := [partFW1, partFW2] }

/-- The two-part lookup outcome after flag derivation. -/
def twoPartLookup : VehicleLookupResult := preLookup.post_init

/-- Counterexample to C6: the generation pipeline's part pre-selection
filter narrows the part list to one part but leaves
`needs_part_selection` set, so at hand-off to the pricing engine the flag
is true with a single part — the claimed iff fails there. -/
theorem part_selection_flag_counterexample :
    twoPartLookup.needs_part_selection = true
    ∧ (apply_part_selection (some "FW2") twoPartLookup).parts.length = 1
    ∧ (apply_part_selection (some "FW2") twoPartLookup).needs_part_selection = true
    ∧ ¬((apply_part_selection (some "FW2") twoPartLookup).needs_part_selection = true
        ↔ 1 < (apply_part_selection (some "FW2") twoPartLookup).parts.length) :=
  ⟨rfl, rfl, rfl, fun h => absurd (h.mp rfl) (by decide)⟩

/-- C6 (amended): `needs_part_selection` is true iff more than one part is
present after construction (`__post_init__`, given the flag is not passed
in set with at most one part — no construction site does) and the
NAGS enrichment step preserves both the flag and the part count, as does
the NHTSA+NAGS fallback merge; however the pipeline's part pre-selection
filter can narrow the list to one part with the flag left set (see the
counterexample), so the iff is not maintained at hand-off when a part
number is pre-selected out of several. -/
theorem part_selection_flag_sync (r : VehicleLookupResult)
    (price_of : String → Option ℚ) (tube_of : String → Option ℚ)
    (config_of : String → NagsGlassConfig) (nr : VehicleLookupResult)
    (parts : List GlassPart) (out : VehicleLookupResult) :
    ((r.needs_part_selection = true → 1 < r.parts.length) →
      (r.post_init.needs_part_selection = true ↔ 1 < r.post_init.parts.length))
    ∧ ((VehicleLookupService._enrich_with_nags_pricing price_of tube_of config_of
          r).needs_part_selection = r.needs_part_selection
      ∧ (VehicleLookupService._enrich_with_nags_pricing price_of tube_of config_of
          r).parts.length = r.parts.length)
    ∧ (nr.parts = [] → nr.needs_part_selection = false →
        VehicleLookupService._fallback_lookup_by_vin (some nr) (some parts) = .ok out →
        (out.needs_part_selection = true ↔ 1 < out.parts.length)) := by
  refine ⟨fun hpre => ?_, ⟨rfl, ?_⟩, fun hparts hflag h => ?_⟩
  · rw [post_init_flag, post_init_parts]
    constructor
    · intro h
      simp only [Bool.or_eq_true, decide_eq_true_eq] at h
      rcases h with h | h
      · exact hpre h
      · exact h
    · intro h
      simp [h]
  · simp [VehicleLookupService._enrich_with_nags_pricing]
  · simp only [VehicleLookupService._fallback_lookup_by_vin] at h
    by_cases hcomp : nr.year ≠ 0 ∧ nr.make ≠ "" ∧ nr.model ≠ ""
    · rw [if_pos hcomp] at h
      simp only [Except.ok.injEq] at h
      subst h
      by_cases hl : parts.length > 1
      · rw [if_pos hl, if_neg (by omega)]
        simp [hl]
      · rw [if_neg hl]
        by_cases hz : parts.length = 0
        · rw [if_pos hz]
          simp [hflag]
          omega
        · rw [if_neg hz]
          simp [hflag]
          omega
    · rw [if_neg hcomp] at h
      simp only [Except.ok.injEq] at h
      subst h
      simp [hflag, hparts]

/-- Projection of a successful lookup outcome, with a given fallback
record on the error side; used to apply theorems to concretely computed
results. -/
def lookupOrDefault (e : Except VehicleLookupError VehicleLookupResult)
    (d : VehicleLookupResult) : VehicleLookupResult :=
  match e with
  | .ok r => r
  | .error _ => d

/-- A complete NHTSA decode outcome with no parts (pre-merge). -/
def nhtsaRecord : VehicleLookupResult :=
  { source := .nhtsa_nags, vin := "1FTFW1ET5DFC10312", year := 2020, make := "Honda",
    model := "Civic", needs_calibration_review := true, confidence := .medium,
    review_reason := some "No calibration data available (NHTSA/NAGS fallback)" }

/-- Witness for C6 (amended) on concrete lookup results. -/
theorem part_selection_flag_sync_witness :
    (preLookup.post_init.needs_part_selection = true
      ↔ 1 < preLookup.post_init.parts.length)
    ∧ (VehicleLookupService._enrich_with_nags_pricing (fun _ => none) (fun _ => none)
        (fun _ => {}) preLookup).needs_part_selection = preLookup.needs_part_selection
    ∧ VehicleLookupService._fallback_lookup_by_vin (some nhtsaRecord)
        (some [partFW1, partFW2])
      = .ok (lookupOrDefault (VehicleLookupService._fallback_lookup_by_vin
          (some nhtsaRecord) (some [partFW1, partFW2])) nhtsaRecord)
    ∧ ((lookupOrDefault (VehicleLookupService._fallback_lookup_by_vin
          (some nhtsaRecord) (some [partFW1, partFW2]))
          nhtsaRecord).needs_part_selection = true
        ↔ 1 < (lookupOrDefault (VehicleLookupService._fallback_lookup_by_vin
            (some nhtsaRecord) (some [partFW1, partFW2])) nhtsaRecord).parts.length) :=
  ⟨(part_selection_flag_sync preLookup (fun _ => none) (fun _ => none) (fun _ => {})
      nhtsaRecord [] nhtsaRecord).1 (by decide),
   (part_selection_flag_sync preLookup (fun _ => none) (fun _ => none) (fun _ => {})
      nhtsaRecord [] nhtsaRecord).2.1.1,
   rfl,
   (part_selection_flag_sync preLookup (fun _ => none) (fun _ => none) (fun _ => {})
      nhtsaRecord [partFW1, partFW2] _).2.2 rfl rfl rfl⟩

/-- A complete NHTSA parse reduces to the plain flagged record (no parts,
calibration review forced, medium confidence). -/
theorem parse_response_complete (vin : String) (year : Int) (make model : String)
    (body_style trim : Option String)
    (h1 : year ≠ 0) (h2 : make ≠ "") (h3 : model ≠ "") :
    NHTSAClient.parse_response vin year make model body_style trim
      = { source := .nhtsa_nags, vin := vin, year := year, make := make, model := model,
          body_style := body_style, trim := trim, parts := [],
          needs_part_selection := false, needs_calibration_review := true,
          needs_manual_review := false, confidence := .medium,
          review_reason := some "No calibration data available (NHTSA/NAGS fallback)" } := by
  unfold NHTSAClient.parse_response
  rw [if_neg (by push_neg; exact ⟨h1, h2, h3⟩)]
  simp [VehicleLookupResult.post_init]

/-- C7: on the VIN fallback path (primary failed, NHTSA succeeded with
complete vehicle data), merging the NAGS parts gives a result whose
`needs_calibration_review` is true whenever no returned part carries
calibration data, whose confidence is `"medium"` when parts came back,
and which additionally has `needs_manual_review` true and confidence
`"low"` when zero parts came back. -/
theorem vin_fallback_flags (vin : String) (year : Int) (make model : String)
    (body_style trim : Option String) (parts : List GlassPart)
    (h1 : year ≠ 0) (h2 : make ≠ "") (h3 : model ≠ "")
    (hc : ∀ p ∈ parts, p.calibration_type = none) :
    Except.map (fun o => o.needs_calibration_review)
      (VehicleLookupService._fallback_lookup_by_vin
        (some (NHTSAClient.parse_response vin year make model body_style trim))
        (some parts)) = .ok true
    ∧ (parts ≠ [] →
        Except.map (fun o => o.confidence)
          (VehicleLookupService._fallback_lookup_by_vin
            (some (NHTSAClient.parse_response vin year make model body_style trim))
            (some parts)) = .ok Confidence.medium)
    ∧ (parts = [] →
        Except.map (fun o => (o.needs_manual_review, o.confidence))
          (VehicleLookupService._fallback_lookup_by_vin
            (some (NHTSAClient.parse_response vin year make model body_style trim))
            (some parts)) = .ok (true, Confidence.low)) := by
  rw [parse_response_complete vin year make model body_style trim h1 h2 h3]
  simp only [VehicleLookupService._fallback_lookup_by_vin]
  rw [if_pos ⟨h1, h2, h3⟩]
  refine ⟨?_, fun hne => ?_, fun hz => ?_⟩
  · by_cases hl : parts.length > 1 <;> by_cases hz : parts.length = 0 <;>
      simp [hl, hz, Except.map]
  · have hz : ¬parts.length = 0 := fun h => hne (List.length_eq_zero.mp h)
    by_cases hl : parts.length > 1 <;> simp [hl, hz, Except.map]
  · subst hz
    simp [Except.map]

/-- Witness for C7 at a concrete complete NHTSA decode, once with one NAGS
part and once with no parts. -/
theorem vin_fallback_flags_witness :
    Except.map (fun o => o.needs_calibration_review)
      (VehicleLookupService._fallback_lookup_by_vin
        (some (NHTSAClient.parse_response "1FTFW1ET5DFC10312" 2020 "Honda" "Civic"
          none none)) (some [partFW1])) = .ok true
    ∧ Except.map (fun o => o.confidence)
        (VehicleLookupService._fallback_lookup_by_vin
          (some (NHTSAClient.parse_response "1FTFW1ET5DFC10312" 2020 "Honda" "Civic"
            none none)) (some [partFW1])) = .ok Confidence.medium
    ∧ Except.map (fun o => (o.needs_manual_review, o.confidence))
        (VehicleLookupService._fallback_lookup_by_vin
          (some (NHTSAClient.parse_response "1FTFW1ET5DFC10312" 2020 "Honda" "Civic"
            none none)) (some [])) = .ok (true, Confidence.low) :=
  ⟨(vin_fallback_flags "1FTFW1ET5DFC10312" 2020 "Honda" "Civic" none none [partFW1]
      (by decide) (by decide) (by decide) (by decide)).1,
   (vin_fallback_flags "1FTFW1ET5DFC10312" 2020 "Honda" "Civic" none none [partFW1]
      (by decide) (by decide) (by decide) (by decide)).2.1 (by decide),
   (vin_fallback_flags "1FTFW1ET5DFC10312" 2020 "Honda" "Civic" none none []
      (by decide) (by decide) (by decide) (by decide)).2.2 rfl⟩

/-- The uppercased two-character truncation never equals the three-letter
string `"OEM"`. -/
theorem pyUpper2_ne_OEM (s : String) : pyUpper2 s ≠ "OEM" := by
  intro h
  have hlen : (pyUpper2 s).data.length ≤ 2 := by
    simp only [pyUpper2]
    rw [List.length_take]
    exact Nat.min_le_left _ _
  rw [h] at hlen
  exact absurd hlen (by decide)

/-- The empty-string guard in `get_glass_discount` is redundant: the
dispatch is on the uppercased two-character prefix. -/
theorem get_glass_discount_eq (p : PricingProfile) (s : String) :
    p.get_glass_discount s
      = (if strStarts (pyUpper2 s) "D" = true then
          (if pyUpper2 s = "DW" then p.glass_discount_dw else p.glass_discount_dt)
        else if strStarts (pyUpper2 s) "F" = true then
          (if pyUpper2 s = "FW" then p.glass_discount_fw else p.glass_discount_ft)
        else if pyUpper2 s = "OE" ∨ pyUpper2 s = "OEM" then p.glass_discount_oem
        else p.glass_discount_dw) := by
  by_cases hs : s = ""
  · subst hs
    rfl
  · simp [PricingProfile.get_glass_discount, hs]

/-- A string whose first character is `F` does not start with `D`. -/
theorem strStarts_F_not_D (u : String) (h : strStarts u "F" = true) :
    strStarts u "D" = false := by
  have hF : u.data.take 1 = ['F'] := of_decide_eq_true h
  unfold strStarts
  apply decide_eq_false
  intro hd
  have hd1 : u.data.take 1 = ['D'] := hd
  rw [hF] at hd1
  exact absurd hd1 (by decide)

/-- Case table of the discount-bucket dispatch on the uppercased two-letter
prefix. -/
theorem get_glass_discount_cases (p : PricingProfile) (s : String) :
    (pyUpper2 s = "DW" → p.get_glass_discount s = p.glass_discount_dw)
    ∧ (strStarts (pyUpper2 s) "D" = true → pyUpper2 s ≠ "DW" →
        p.get_glass_discount s = p.glass_discount_dt)
    ∧ (pyUpper2 s = "FW" → p.get_glass_discount s = p.glass_discount_fw)
    ∧ (strStarts (pyUpper2 s) "F" = true → pyUpper2 s ≠ "FW" →
        p.get_glass_discount s = p.glass_discount_ft)
    ∧ (pyUpper2 s = "OE" → p.get_glass_discount s = p.glass_discount_oem)
    ∧ (strStarts (pyUpper2 s) "D" = false → strStarts (pyUpper2 s) "F" = false →
        pyUpper2 s ≠ "OE" → p.get_glass_discount s = p.glass_discount_dw) := by
  refine ⟨fun h1 => ?_, fun h1 h2 => ?_, fun h1 => ?_, fun h1 h2 => ?_, fun h1 => ?_,
    fun h1 h2 h3 => ?_⟩ <;> rw [get_glass_discount_eq]
  · rw [h1]; rfl
  · rw [if_pos h1, if_neg h2]
  · rw [h1]; rfl
  · rw [if_neg (by rw [strStarts_F_not_D _ h1]; exact Bool.false_ne_true),
      if_pos h1, if_neg h2]
  · rw [h1]; rfl
  · rw [if_neg (by rw [h1]; exact Bool.false_ne_true),
      if_neg (by rw [h2]; exact Bool.false_ne_true),
      if_neg (not_or.mpr ⟨h3, pyUpper2_ne_OEM s⟩)]

/-- C2: on any successful quote calculation, the glass cost of the priced
(first) part with a known list price is list price × (1 − bucket/100),
with the bucket chosen from the uppercased two-character prefix — exactly
`"DW"`/`"FW"` hit the windshield buckets, any other prefix starting with
`D`/`F` the matching tempered bucket, `"OE"` (which `"OEM"` truncates to)
the OEM bucket, and anything else defaults to the domestic-windshield
bucket; with the list price absent, the glass cost is zero and the
`missing_nags_price` failsafe flag is set on the resulting record. -/
theorem glass_cost_discount_buckets (profile : PricingProfile)
    (lk : VehicleLookupResult) (shop : Shop) (st : String) (dist : Option ℚ)
    (part : GlassPart) (rest : List GlassPart) (qp : QuotePricing)
    (hp : lk.parts = part :: rest)
    (h : PricingService.calculate_quote profile lk shop st dist = .ok qp) :
    (∀ pr, part.nags_list_price = some pr →
      ((pyUpper2 part.prefix_cd = "DW" →
          qp.glass_cost = pr * (1 - profile.glass_discount_dw / 100))
      ∧ (strStarts (pyUpper2 part.prefix_cd) "D" = true →
          pyUpper2 part.prefix_cd ≠ "DW" →
          qp.glass_cost = pr * (1 - profile.glass_discount_dt / 100))
      ∧ (pyUpper2 part.prefix_cd = "FW" →
          qp.glass_cost = pr * (1 - profile.glass_discount_fw / 100))
      ∧ (strStarts (pyUpper2 part.prefix_cd) "F" = true →
          pyUpper2 part.prefix_cd ≠ "FW" →
          qp.glass_cost = pr * (1 - profile.glass_discount_ft / 100))
      ∧ (pyUpper2 part.prefix_cd = "OE" →
          qp.glass_cost = pr * (1 - profile.glass_discount_oem / 100))
      ∧ (strStarts (pyUpper2 part.prefix_cd) "D" = false →
          strStarts (pyUpper2 part.prefix_cd) "F" = false →
          pyUpper2 part.prefix_cd ≠ "OE" →
          qp.glass_cost = pr * (1 - profile.glass_discount_dw / 100))))
    ∧ (part.nags_list_price = none →
        qp.glass_cost = 0 ∧ qp.missing_nags_price = true) := by
  obtain ⟨mf, hmf, hqp⟩ :=
    calculate_quote_ok_inv profile lk shop st dist part rest qp hp h
  subst hqp
  rw [check_price_bounds_glass_cost, check_price_bounds_missing_nags_price]
  constructor
  · intro pr hpr
    have hg : (PricingService.mk_quote_pricing profile lk shop part mf).glass_cost
        = pr * (1 - profile.get_glass_discount part.prefix_cd / 100) := by
      show PricingService._calculate_glass_cost part profile = _
      unfold PricingService._calculate_glass_cost
      rw [hpr]
      rfl
    rw [hg]
    refine ⟨fun h1 => ?_, fun h1 h2 => ?_, fun h1 => ?_, fun h1 h2 => ?_, fun h1 => ?_,
      fun h1 h2 h3 => ?_⟩
    · rw [(get_glass_discount_cases profile part.prefix_cd).1 h1]
    · rw [(get_glass_discount_cases profile part.prefix_cd).2.1 h1 h2]
    · rw [(get_glass_discount_cases profile part.prefix_cd).2.2.1 h1]
    · rw [(get_glass_discount_cases profile part.prefix_cd).2.2.2.1 h1 h2]
    · rw [(get_glass_discount_cases profile part.prefix_cd).2.2.2.2.1 h1]
    · rw [(get_glass_discount_cases profile part.prefix_cd).2.2.2.2.2 h1 h2 h3]
  · intro hpr
    constructor
    · show PricingService._calculate_glass_cost part profile = 0
      unfold PricingService._calculate_glass_cost
      rw [hpr]
    · show part.nags_list_price.isNone = true
      rw [hpr]
      rfl

/-- Projection of a successful quote pricing outcome, with a given
fallback record on the error side; used to apply theorems to concretely
computed results. -/
def quoteOrDefault (e : Except PricingError QuotePricing) (d : QuotePricing) :
    QuotePricing :=
  match e with
  | .ok q => q
  | .error _ => d

/-- A lookup result with no parts. -/
def emptyLookup : VehicleLookupResult :=
  { source := .autobolt, vin := "1FTFW1ET5DFC10312", year := 2020, make := "Honda",
    model := "Civic" }

/-- A foreign-windshield part with the spec's 400-dollar list price. -/
def fwPart : GlassPart :=
  { nags_part_number := "FW03898", prefix_cd := "FW", nags_list_price := some 400 }

/-- Witness for C2: a 400-dollar `FW` part on the default profile (48%
discount) is quoted at 208, and a part with no list price yields zero
glass cost with the failsafe flag set. -/
theorem glass_cost_discount_buckets_witness :
    PricingService.calculate_quote {} { emptyLookup with parts := [fwPart] }
        sampleShop "in_store" none
      = .ok (quoteOrDefault (PricingService.calculate_quote {}
          { emptyLookup with parts := [fwPart] } sampleShop "in_store" none)
          sampleQuotePricing)
    ∧ (quoteOrDefault (PricingService.calculate_quote {}
        { emptyLookup with parts := [fwPart] } sampleShop "in_store" none)
        sampleQuotePricing).glass_cost = 208
    ∧ (quoteOrDefault (PricingService.calculate_quote {}
        { emptyLookup with parts := [partFW1] } sampleShop "in_store" none)
        sampleQuotePricing).glass_cost = 0
    ∧ (quoteOrDefault (PricingService.calculate_quote {}
        { emptyLookup with parts := [partFW1] } sampleShop "in_store" none)
        sampleQuotePricing).missing_nags_price = true :=
  ⟨rfl,
   (((glass_cost_discount_buckets {} { emptyLookup with parts := [fwPart] } sampleShop
      "in_store" none fwPart [] _ rfl rfl).1 400 rfl).2.2.1 (by decide)).trans
     (by norm_num),
   ((glass_cost_discount_buckets {} { emptyLookup with parts := [partFW1] } sampleShop
      "in_store" none partFW1 [] _ rfl rfl).2 rfl).1,
   ((glass_cost_discount_buckets {} { emptyLookup with parts := [partFW1] } sampleShop
      "in_store" none partFW1 [] _ rfl rfl).2 rfl).2⟩

/-- C10: `calculate_quote` prices only the first part of the lookup
result: with an empty part list it raises `PricingError`; replacing the
tail of the part list leaves the entire outcome unchanged (so no monetary
amount depends on later parts); and on success every component cost is
computed from the head part (with the mobile fee from the service
parameters), with the subtotal their sum and the total subtotal plus
(zero) tax. -/
theorem quote_prices_first_part (profile : PricingProfile)
    (lk : VehicleLookupResult) (shop : Shop) (st : String) (dist : Option ℚ)
    (part : GlassPart) (rest rest2 : List GlassPart) (qp : QuotePricing) :
    (lk.parts = [] →
      PricingService.calculate_quote profile lk shop st dist = .error .noParts)
    ∧ PricingService.calculate_quote profile { lk with parts := part :: rest }
        shop st dist
      = PricingService.calculate_quote profile { lk with parts := part :: rest2 }
        shop st dist
    ∧ (PricingService.calculate_quote profile { lk with parts := part :: rest }
        shop st dist = .ok qp →
        qp.glass_cost = PricingService._calculate_glass_cost part profile
        ∧ qp.labor_cost = PricingService._calculate_labor_cost part profile
        ∧ qp.kit_fee = PricingService._calculate_kit_fee part profile
        ∧ qp.moulding_fee = PricingService._calculate_moulding_fee part profile
        ∧ qp.hardware_fee = PricingService._calculate_hardware_fee part profile
        ∧ qp.calibration_fee = PricingService._calculate_calibration_fee part profile
        ∧ PricingService._calculate_mobile_fee st dist profile = .ok qp.mobile_fee
        ∧ qp.subtotal = qp.glass_cost + qp.labor_cost + qp.kit_fee + qp.moulding_fee
            + qp.hardware_fee + qp.calibration_fee + qp.mobile_fee
        ∧ qp.tax = 0
        ∧ qp.total = qp.subtotal + qp.tax) := by
  refine ⟨fun hempty => ?_, ?_, fun h => ?_⟩
  · unfold PricingService.calculate_quote
    rw [hempty]
  · rfl
  · obtain ⟨mf, hmf, hqp⟩ := calculate_quote_ok_inv profile
      { lk with parts := part :: rest } shop st dist part rest qp rfl h
    subst hqp
    rw [check_price_bounds_glass_cost, check_price_bounds_labor_cost,
      check_price_bounds_kit_fee, check_price_bounds_moulding_fee,
      check_price_bounds_hardware_fee, check_price_bounds_calibration_fee,
      check_price_bounds_mobile_fee, check_price_bounds_subtotal,
      check_price_bounds_tax, check_price_bounds_total]
    exact ⟨rfl, rfl, rfl, rfl, rfl, rfl, hmf, rfl, rfl, rfl⟩

/-- Witness for C10 at a concrete empty and one-part lookup. -/
theorem quote_prices_first_part_witness :
    PricingService.calculate_quote {} emptyLookup sampleShop "in_store" none
      = .error .noParts
    ∧ PricingService.calculate_quote {} { emptyLookup with parts := [partFW1] }
        sampleShop "in_store" none
      = PricingService.calculate_quote {}
        { emptyLookup with parts := [partFW1, partFW2] } sampleShop "in_store" none
    ∧ (quoteOrDefault (PricingService.calculate_quote {}
        { emptyLookup with parts := [partFW1] } sampleShop "in_store" none)
        sampleQuotePricing).kit_fee
      = PricingService._calculate_kit_fee partFW1 {}
    ∧ (quoteOrDefault (PricingService.calculate_quote {}
        { emptyLookup with parts := [partFW1] } sampleShop "in_store" none)
        sampleQuotePricing).total
      = (quoteOrDefault (PricingService.calculate_quote {}
          { emptyLookup with parts := [partFW1] } sampleShop "in_store" none)
          sampleQuotePricing).subtotal
        + (quoteOrDefault (PricingService.calculate_quote {}
            { emptyLookup with parts := [partFW1] } sampleShop "in_store" none)
            sampleQuotePricing).tax :=
  ⟨(quote_prices_first_part {} emptyLookup sampleShop "in_store" none partFW1 [] []
      sampleQuotePricing).1 rfl,
   (quote_prices_first_part {} emptyLookup sampleShop "in_store" none partFW1 []
      [partFW2] sampleQuotePricing).2.1,
   ((quote_prices_first_part {} emptyLookup sampleShop "in_store" none partFW1 [] [] _).2.2
      rfl).2.2.1,
   ((quote_prices_first_part {} emptyLookup sampleShop "in_store" none partFW1 [] [] _).2.2
      rfl).2.2.2.2.2.2.2.2.2⟩

end SpeedyForm
